import Mathlib

/-!
Verification of src/telegram/notify_train.py: a shallow embedding of the
notification decision engine, eligibility rules, time-window evaluator,
delay calculator and state store of the train monitor, together with
theorems settling the specification claims about them.

Modelling conventions, stated once:
* JSON dictionary fields that the script reads with .get are modelled as
  Option values, with none standing for an absent key (the script is fed
  objects that omit unknown fields rather than carrying explicit nulls).
* Wall-clock instants (datetime.now() and the stored, strftime-formatted
  timestamp) are modelled as integer seconds; the strptime of a stored
  timestamp is modelled as already performed, with none standing for a
  missing or unparseable timestamp string (both lead to the same branch
  of the source).
* The md5 hexdigest in get_train_signature is modelled as the identity on
  the joined component string: the digest is a pure function of that
  string, so equal strings give equal digests, and distinct component
  strings are taken to give distinct digests (no md5 collisions among the
  short strings involved).
* Network effects are modelled by explicit inputs: the decoded departures
  response is a parameter (none when the fetch or JSON decoding raised,
  which the source catches and logs), and delivery success of the
  Telegram POST is a Boolean oracle (the source catches any exception and
  returns None).
-/

namespace NotifyTrain

/-- Criteria object of a trip in config.json; keys the script may find
absent are Option fields. -/
structure Criteria where
  notify_cancelled : Option Bool
  notify_delayed : Option Bool
  notify_platform : Option Bool
  delay_threshold_minutes : Option Int
deriving Repr, DecidableEq

/-- One entry of the trips list in config.json. The Python keys are
name, from, to, days, time_start, time_end, criteria; from and to are
Lean keywords so those fields carry a trailing underscore. -/
structure Trip where
  name : String
  from_ : String
  to_ : String
  days : List String
  time_start : String
  time_end : String
  criteria : Criteria
deriving Repr, DecidableEq

/-- Telegram part of config.json. -/
structure Config where
  telegram_token : String
  telegram_chat_id : String
deriving Repr, DecidableEq

/-- One train service object of the departures feed: std, etd, isCancelled
(read with default False), platform, and the locationName fields of the
destination array entries. -/
structure Train where
  std : Option String
  etd : Option String
  isCancelled : Bool
  platform : Option String
  destination : List (Option String)
deriving Repr, DecidableEq

/-- One per-trip entry of .notification_state.json, as written by
check_trip: signature, train_time, timestamp, reason. Fields are Option
because a loaded state file may omit them. The timestamp is modelled
parsed, in seconds; none covers an absent, empty or unparseable timestamp
string (the source reaches the same fallthrough in each of those cases). -/
structure NotificationRecord where
  signature : Option String
  train_time : Option String
  timestamp : Option Int
  reason : Option String
deriving Repr, DecidableEq

/-- The state dictionary: trip name to NotificationRecord. -/
abbrev StateMap := List (String × NotificationRecord)

/-- Decoded departures response: locationName and trainServices. An
absent or empty trainServices list is falsy in the source; both are []. -/
structure FetchResult where
  locationName : Option String
  trainServices : List Train
deriving Repr, DecidableEq

/-- Python dictionary read state.get(name, default-empty): the first
binding for the key, none when there is none (an empty default dict is
falsy in the source, which none also models). -/
def stateLookup (st : StateMap) (k : String) : Option NotificationRecord :=
  (st.find? (fun p => p.1 == k)).map (fun p => p.2)

/-- Python dictionary assignment state[name] = record (overwrite). -/
def stateInsert (st : StateMap) (k : String) (v : NotificationRecord) : StateMap :=
  (k, v) :: st.filter (fun p => p.1 != k)

/-- Python truthiness of an optional string: None and the empty string
are falsy, every other string is truthy. -/
def truthyStrOpt : Option String → Bool
  | none => false
  | some s => s != ""

/-- Python str applied to a bool, as used in get_train_signature. -/
def pyStrBool (b : Bool) : String := if b then "True" else "False"

/-- Python f-string rendering of an optional string (None prints as
"None"). -/
def pyShowOpt : Option String → String
  | none => "None"
  | some s => s

/-- Occurrence of a character list inside another, by checking every
suffix. -/
def containsSub (needle : List Char) : List Char → Bool
  | [] => needle.isEmpty
  | c :: rest => needle.isPrefixOf (c :: rest) || containsSub needle rest

/-- Python substring membership needle in hay. -/
def pyContains (needle hay : String) : Bool := containsSub needle.data hay.data

/-- Python string less-than: lexicographic comparison of the code
points, a strict prefix comparing below the longer string. -/
def pyStrLt : List Char → List Char → Bool
  | [], [] => false
  | [], _ :: _ => true
  | _ :: _, [] => false
  | a :: as, b :: bs =>
    if a.toNat < b.toNat then true
    else if b.toNat < a.toNat then false
    else pyStrLt as bs

/-- Split a character list at its first colon. -/
def splitColon : List Char → Option (List Char × List Char)
  | [] => none
  | ':' :: rest => some ([], rest)
  | c :: rest => (splitColon rest).map (fun p => (c :: p.1, p.2))

/-- One strptime numeric field of the formats used here: one or two
decimal digit characters. -/
def fieldToNat : List Char → Option Nat
  | [a] => if a.isDigit then some (a.toNat - 48) else none
  | [a, b] =>
    if a.isDigit ∧ b.isDigit then some ((a.toNat - 48) * 10 + (b.toNat - 48)) else none
  | _ => none

/-- datetime.strptime with format percent-H colon percent-M, reduced to
minutes since midnight: an hour field and a minute field of one or two
digits each around the first colon, hour at most 23, minute at most 59;
none on any other input (the ValueError of the source). A second colon
makes the minute field non-numeric and fails, as in strptime. -/
def parseHHMM (s : String) : Option Nat :=
  match splitColon s.data with
  | some (hcs, mcs) =>
    match fieldToNat hcs, fieldToNat mcs with
    | some h, some m => if h ≤ 23 ∧ m ≤ 59 then some (h * 60 + m) else none
    | _, _ => none
  | none => none

/-- parse_delay_minutes of the source: the sentinel etd values Delayed
and On time yield 0; otherwise both times are parsed, a day (1440
minutes) is added to the estimate when it is clock-earlier than the
schedule, and the difference in whole minutes is returned; any parse
failure, including a missing value, yields 0. Arguments are Option
because the source may pass a missing std or etd value through. -/
def parse_delay_minutes (etd std : Option String) : Int :=
  if etd = some "Delayed" ∨ etd = some "On time" then 0
  else
    match etd.bind parseHHMM, std.bind parseHHMM with
    | some e, some s =>
      let e2 : Nat := if e < s then e + 1440 else e
      (e2 : Int) - (s : Int)
    | _, _ => 0

/-- is_time_in_range of the source over the parsed minute values; none
models the uncaught strptime ValueError on a malformed time string. -/
def is_time_in_range (current_time start_time end_time : String) : Option Bool :=
  match parseHHMM start_time, parseHHMM end_time, parseHHMM current_time with
  | some s, some e, some c =>
    if s ≤ e then some (decide (s ≤ c ∧ c ≤ e))
    else some (decide (c ≥ s ∨ c ≤ e))
  | _, _, _ => none

/-- is_day_active of the source: case-insensitive membership of the
current weekday name in the active days list. -/
def is_day_active (current_day : String) (active_days : List String) : Bool :=
  (active_days.map String.toLower).contains current_day.toLower

/-- get_train_signature of the source: the pipe-joined component string
(trip name, std, etd, str(isCancelled), platform with default unknown).
The md5 hexdigest applied to this string in the source is modelled as
the identity, per the conventions above. -/
def get_train_signature (trip_name : String) (train : Train) : String :=
  String.intercalate "|" [trip_name, train.std.getD "", train.etd.getD "",
    pyStrBool train.isCancelled, train.platform.getD "unknown"]

/-- should_notify_train of the source. last_state is the per-trip record
(none for a missing or empty dictionary, both falsy in the source); now
is datetime.now() in seconds. Returns the (should_notify, reason) pair. -/
def should_notify_train (trip_name : String) (train : Train)
    (last_state : Option NotificationRecord) (now : Int) : Bool × String :=
  let std := train.std.getD ""
  match last_state with
  | none => (true, "first_notification")
  | some ls =>
    if ls.train_time = some std then
      let current_signature := get_train_signature trip_name train
      if ls.signature = some current_signature then (false, "duplicate")
      else (true, "changed")
    else if truthyStrOpt ls.train_time then
      match ls.timestamp with
      | some last_time =>
        if now - last_time < 600 then
          let last_train_time := ls.train_time.getD ""
          if pyStrLt last_train_time.data std.data then (false, "too_soon")
          else (true, "new_train")
        else (true, "new_train")
      | none => (true, "new_train")
    else (true, "first_notification")

/-- Condition of the state file on disk when load_state runs. -/
inductive StateFile where
  | missing
  | corrupt
  | parsed (state : StateMap)
deriving Repr

/-- load_state of the source: a missing file and a file whose JSON fails
to parse both give the empty state; otherwise the parsed contents. -/
def load_state : StateFile → StateMap
  | StateFile.missing => []
  | StateFile.corrupt => []
  | StateFile.parsed s => s

/-- send_telegram of the source: the urlopen POST either succeeds and
returns the response (modelled some unit) or raises, in which case the
exception is caught, logged, and None is returned. The ok oracle models
delivery success. -/
def send_telegram (ok : Bool) (token chat_id message : String) : Option Unit :=
  if ok then some () else none

/-- Effective etd of a train inside check_trip: train.get(etd-key,
train.get(std-key)). -/
def etdEff (train : Train) : Option String := train.etd <|> train.std

/-- Destination name used by check_trip: locationName of the first
destination entry when the destination list is truthy, with the trip
destination code as default at each step. -/
def train_dest_of (trip : Trip) (train : Train) : String :=
  match train.destination with
  | d :: _ => d.getD trip.to_
  | [] => trip.to_

/-- Eligibility block of check_trip (Rule 1 and Rule 2, the code that
sets should_notify and notification_reason before the dedup check): a
cancelled train gives CANCELLED; otherwise, when etd differs from both
On time and std, the parsed delay is compared against the
delay_threshold_minutes criterion (default 5) and gives DELAYED n min
when at or above it; otherwise a truthy platform together with the
notify_platform criterion (default True) gives ON TIME - Platform p.
Returns the notification_reason, none when should_notify stays False. -/
def eligibility (trip : Trip) (train : Train) : Option String :=
  let etd := etdEff train
  if train.isCancelled then some "CANCELLED"
  else if etd ≠ some "On time" ∧ etd ≠ train.std then
    let delay_mins := parse_delay_minutes etd train.std
    let threshold := trip.criteria.delay_threshold_minutes.getD 5
    if threshold ≤ delay_mins then
      some ("DELAYED " ++ toString delay_mins ++ "min")
    else none
  else if truthyStrOpt train.platform = true ∧ trip.criteria.notify_platform.getD true = true then
    some ("ON TIME - Platform " ++ train.platform.getD "")
  else none

/-- Message text built by check_trip for an approved notification. The
delay recomputation in the DELAYED branch uses the std bound in the
delay rule, which is the scheduled time of this train. -/
def build_message (trip : Trip) (trip_name from_name : String) (train : Train)
    (train_time notification_reason : String) : String :=
  let train_dest := train_dest_of trip train
  let etd := etdEff train
  let status :=
    if train.isCancelled then "Status: ❌ CANCELLED"
    else if pyContains "DELAYED" notification_reason then
      "Status: ⏰ DELAYED " ++ toString (parse_delay_minutes etd train.std) ++ " minutes\n"
        ++ "Expected: " ++ pyShowOpt etd
    else "Status: ✅ ON TIME"
  "🚂 " ++ trip_name ++ "\n" ++ "Train " ++ train_time ++ " " ++ from_name ++ " → "
    ++ train_dest ++ "\n" ++ status
    ++ (if truthyStrOpt train.platform then "\nPlatform: " ++ train.platform.getD "" else "")

/-- Train loop of check_trip over trains[:3]: for each train, the
eligibility block decides worthiness; a worthy train is put to
should_notify_train; on approval the message is built, send_telegram is
invoked (its result discarded by the source), the state entry for the
trip is overwritten with the new signature, train_time (std with default
Unknown), timestamp and reason, and the loop breaks; otherwise the loop
continues with the next train. Returns the updated state and the list of
attempted dispatches with their delivery results. -/
def check_trains_loop (config : Config) (trip : Trip) (trip_name from_name : String)
    (last_state : Option NotificationRecord) (now : Int) (ok : Bool) :
    List Train → StateMap → StateMap × List (String × Option Unit)
  | [], state => (state, [])
  | train :: rest, state =>
    let train_time := train.std.getD "Unknown"
    match eligibility trip train with
    | none => check_trains_loop config trip trip_name from_name last_state now ok rest state
    | some notification_reason =>
      if (should_notify_train trip_name train last_state now).1 then
        let message := build_message trip trip_name from_name train train_time notification_reason
        let sendResult := send_telegram ok config.telegram_token config.telegram_chat_id message
        let current_signature := get_train_signature trip_name train
        (stateInsert state trip_name
          ⟨some current_signature, some train_time, some now, some notification_reason⟩,
         [(message, sendResult)])
      else
        check_trains_loop config trip trip_name from_name last_state now ok rest state

/-- check_trip of the source: the day gate, the time-window gate (none
models the uncaught ValueError on a malformed window string), the fetch
(none models the caught network or JSON error), the empty-services early
return, and the train loop over the first three services. now,
current_day and current_time are the values the source takes from
datetime.now(). -/
def check_trip (config : Config) (trip : Trip) (current_day current_time : String)
    (now : Int) (fetch : Option FetchResult) (ok : Bool) (state : StateMap) :
    Option (StateMap × List (String × Option Unit)) :=
  if is_day_active current_day trip.days = false then some (state, [])
  else
    match is_time_in_range current_time trip.time_start trip.time_end with
    | none => none
    | some false => some (state, [])
    | some true =>
      match fetch with
      | none => some (state, [])
      | some data =>
        if data.trainServices = [] then some (state, [])
        else
          let last_state := stateLookup state trip.name
          let from_name := data.locationName.getD trip.from_
          some (check_trains_loop config trip trip.name from_name last_state now ok
            (data.trainServices.take 3) state)

/-- Eligibility as the specification claim words it, for the refinement
comparison with the eligibility of the source: each of the three Boolean
criteria flags gates its corresponding rule (cancelled gated by
notify_cancelled, delay at or above threshold gated by notify_delayed,
on-time-with-known-platform gated by notify_platform). The claim leaves
defaults for the first two flags unstated; false is used here, and the
comparison below sets the flags explicitly so the defaults play no part. -/
def spec_eligibility (trip : Trip) (train : Train) : Bool :=
  (train.isCancelled && trip.criteria.notify_cancelled.getD false)
  || (decide (trip.criteria.delay_threshold_minutes.getD 5 ≤
        parse_delay_minutes (etdEff train) train.std)
      && trip.criteria.notify_delayed.getD false)
  || ((etdEff train == some "On time" || etdEff train == train.std)
      && truthyStrOpt train.platform && trip.criteria.notify_platform.getD true)

/-- Any minute value produced by the time parser is below one day. -/
theorem parseHHMM_lt_1440 {s : String} {v : Nat} (h : parseHHMM s = some v) : v < 1440 := by
  unfold parseHHMM at h
  repeat' split at h
  all_goals simp_all
  omega

/-- A successfully parsed time string is not a status sentinel. -/
theorem parseHHMM_ne_sentinel {s : String} {v : Nat} (h : parseHHMM s = some v) :
    s ≠ "Delayed" ∧ s ≠ "On time" := by
  constructor
  · rintro rfl
    rw [show parseHHMM "Delayed" = none from rfl] at h
    exact Option.noConfusion h
  · rintro rfl
    rw [show parseHHMM "On time" = none from rfl] at h
    exact Option.noConfusion h

/-- C7: for every pair of real HH:MM times, the delay calculator treats
an estimate that is clock-wise earlier than the schedule as next-day
(adding 24 hours, 1440 minutes) before differencing; the result is
always a non-negative integer minute count (scheduled 23:55, estimated
00:05 gives 10, not a negative number); and on any parse failure of a
non-sentinel input it returns 0. -/
theorem C7_delay_rollover_nonneg :
    (∀ (etd std : String) (e s : Nat), parseHHMM etd = some e → parseHHMM std = some s →
      parse_delay_minutes (some etd) (some std) =
        (if e < s then (e : Int) + 1440 - (s : Int) else (e : Int) - (s : Int)))
    ∧ (∀ etd std : Option String, 0 ≤ parse_delay_minutes etd std)
    ∧ parse_delay_minutes (some "00:05") (some "23:55") = 10
    ∧ (∀ etd std : Option String, etd ≠ some "Delayed" → etd ≠ some "On time" →
        (etd.bind parseHHMM = none ∨ std.bind parseHHMM = none) →
        parse_delay_minutes etd std = 0) := by
  refine ⟨?_, ?_, by decide, ?_⟩
  · intro etd std e s he hs
    obtain ⟨hd, ho⟩ := parseHHMM_ne_sentinel he
    unfold parse_delay_minutes
    rw [if_neg]
    · simp only [Option.some_bind, he, hs]
      split
      · push_cast
        ring
      · rfl
    · rintro (h | h) <;> simp_all
  · intro etd std
    unfold parse_delay_minutes
    split
    · exact le_refl 0
    · rcases he : etd.bind parseHHMM with _ | e
      · rcases hs : std.bind parseHHMM with _ | s <;> simp [he, hs]
      · rcases hs : std.bind parseHHMM with _ | s
        · simp [he, hs]
        · have hs1440 : s < 1440 := by
            cases std with
            | none => simp at hs
            | some str =>
              rw [Option.some_bind] at hs
              exact parseHHMM_lt_1440 hs
          simp only [he, hs]
          split <;> push_cast <;> omega
  · intro etd std hd ho hnone
    unfold parse_delay_minutes
    rw [if_neg]
    · rcases hnone with h | h
      · rcases h2 : std.bind parseHHMM with _ | s <;> simp [h, h2]
      · rcases h2 : etd.bind parseHHMM with _ | e <;> simp [h, h2]
    · rintro (h | h)
      · exact hd h
      · exact ho h

/-- C7 witness: the rollover characterization applied at estimated 10:07
against scheduled 10:00. -/
theorem C7_witness :
    parseHHMM "10:07" = some 607 ∧ parseHHMM "10:00" = some 600 ∧
    parse_delay_minutes (some "10:07") (some "10:00") =
      (if (607 : Nat) < 600 then (607 : Int) + 1440 - 600 else (607 : Int) - 600) :=
  ⟨by decide, by decide,
   C7_delay_rollover_nonneg.1 "10:07" "10:00" 607 600 (by decide) (by decide)⟩

/-- C9: for every parsed triple of start, end and current times, when
start is at most end the route is inside its window exactly when
start ≤ current ≤ end, and when start exceeds end (window crossing
midnight) exactly when current ≥ start or current ≤ end; window
23:30 to 00:30 with current time 00:10 is in range. -/
theorem C9_time_window :
    (∀ (cur st en : String) (s e c : Nat),
      parseHHMM st = some s → parseHHMM en = some e → parseHHMM cur = some c →
      ((s ≤ e → (is_time_in_range cur st en = some true ↔ (s ≤ c ∧ c ≤ e)))
       ∧ (e < s → (is_time_in_range cur st en = some true ↔ (c ≥ s ∨ c ≤ e)))))
    ∧ is_time_in_range "00:10" "23:30" "00:30" = some true := by
  refine ⟨?_, by decide⟩
  intro cur st en s e c hs he hc
  unfold is_time_in_range
  rw [hs, he, hc]
  dsimp only
  constructor
  · intro hle
    rw [if_pos hle]
    simp
  · intro hlt
    rw [if_neg (by omega)]
    simp

/-- C9 witness: the in-range characterization applied to the window
07:00 to 09:00 at current time 08:00. -/
theorem C9_witness :
    parseHHMM "07:00" = some 420 ∧ parseHHMM "09:00" = some 540 ∧ parseHHMM "08:00" = some 480
    ∧ (420 : Nat) ≤ 540
    ∧ (is_time_in_range "08:00" "07:00" "09:00" = some true ↔
        ((420 : Nat) ≤ 480 ∧ (480 : Nat) ≤ 540)) :=
  ⟨by decide, by decide, by decide, by decide,
   (C9_time_window.1 "08:00" "07:00" "09:00" 420 540 480
     (by decide) (by decide) (by decide)).1 (by decide)⟩

/-- C5: with no prior record for a route, including a missing or corrupt
state file where load_state returns the empty mapping without failing,
the decision engine approves the first actionable train with reason
first_notification. -/
theorem C5_first_notification :
    ∀ (f : StateFile), (f = StateFile.missing ∨ f = StateFile.corrupt) →
    ∀ (tn : String) (train : Train) (now : Int),
      load_state f = [] ∧ stateLookup (load_state f) tn = none ∧
      should_notify_train tn train (stateLookup (load_state f) tn) now =
        (true, "first_notification") := by
  rintro f (rfl | rfl) tn train now <;> exact ⟨rfl, rfl, rfl⟩

/-- C5 witness: the first-notification behavior on a missing state file,
for route R and an on-time train. -/
theorem C5_witness :
    (StateFile.missing = StateFile.missing ∨ StateFile.missing = StateFile.corrupt)
    ∧ should_notify_train "R" ⟨some "10:00", some "On time", false, some "1", []⟩
        (stateLookup (load_state StateFile.missing) "R") 0 = (true, "first_notification") :=
  ⟨Or.inl rfl,
   (C5_first_notification StateFile.missing (Or.inl rfl) "R"
     ⟨some "10:00", some "On time", false, some "1", []⟩ 0).2.2⟩

/-- C3: when the last record holds the same train_time as the observed
scheduled time, the engine suppresses with reason duplicate exactly when
the candidate signature equals the recorded one and approves with
reason changed exactly when it differs; in particular, re-observing a
train identically right after its approval wrote the record gives
duplicate, and a platform change from absent to 4 gives changed. -/
theorem C3_duplicate_vs_changed :
    (∀ (tn : String) (train : Train) (ls : NotificationRecord) (now : Int),
      ls.train_time = some (train.std.getD "") →
      should_notify_train tn train (some ls) now =
        (if ls.signature = some (get_train_signature tn train)
         then ((false, "duplicate") : Bool × String) else (true, "changed")))
    ∧ should_notify_train "R" ⟨some "10:00", some "On time", false, some "2", []⟩
        (some ⟨some (get_train_signature "R" ⟨some "10:00", some "On time", false, some "2", []⟩),
          some "10:00", some 0, some "ON TIME - Platform 2"⟩) 0 = (false, "duplicate")
    ∧ should_notify_train "R" ⟨some "10:00", some "On time", false, some "4", []⟩
        (some ⟨some (get_train_signature "R" ⟨some "10:00", some "On time", false, none, []⟩),
          some "10:00", some 0, some "ON TIME - Platform 2"⟩) 0 = (true, "changed") := by
  refine ⟨?_, by decide, by decide⟩
  intro tn train ls now h
  unfold should_notify_train
  dsimp only
  rw [if_pos h]

/-- C3 witness: the signature characterization applied to a record whose
signature differs from the candidate signature. -/
theorem C3_witness :
    (⟨some "old", some "10:00", some 0, none⟩ : NotificationRecord).train_time
      = some ((⟨some "10:00", some "On time", false, some "9", []⟩ : Train).std.getD "")
    ∧ should_notify_train "W" ⟨some "10:00", some "On time", false, some "9", []⟩
        (some ⟨some "old", some "10:00", some 0, none⟩) 0 =
        (if (⟨some "old", some "10:00", some 0, none⟩ : NotificationRecord).signature
            = some (get_train_signature "W" ⟨some "10:00", some "On time", false, some "9", []⟩)
         then ((false, "duplicate") : Bool × String) else (true, "changed")) :=
  ⟨by decide,
   C3_duplicate_vs_changed.1 "W" ⟨some "10:00", some "On time", false, some "9", []⟩
     ⟨some "old", some "10:00", some 0, none⟩ 0 (by decide)⟩

/-- C4: with a truthy recorded train_time different from the observed
scheduled time, the engine suppresses with reason too_soon exactly when
the recorded timestamp parses and fewer than 10 minutes (600 seconds)
have elapsed and the new scheduled time compares above the recorded one,
and otherwise approves with reason new_train; 3 minutes after notifying
a 10:00 train, a 10:15 train is suppressed while a 09:55 train is
approved. -/
theorem C4_too_soon :
    (∀ (tn : String) (train : Train) (ls : NotificationRecord) (now : Int),
      ls.train_time ≠ some (train.std.getD "") →
      truthyStrOpt ls.train_time = true →
      should_notify_train tn train (some ls) now =
        (if ((match ls.timestamp with
              | some ts => decide (now - ts < 600)
              | none => false)
             && pyStrLt (ls.train_time.getD "").data (train.std.getD "").data) = true
         then ((false, "too_soon") : Bool × String) else (true, "new_train")))
    ∧ should_notify_train "R" ⟨some "10:15", some "On time", false, some "1", []⟩
        (some ⟨some "sig", some "10:00", some 0, some "X"⟩) 180 = (false, "too_soon")
    ∧ should_notify_train "R" ⟨some "09:55", some "On time", false, some "1", []⟩
        (some ⟨some "sig", some "10:00", some 0, some "X"⟩) 180 = (true, "new_train") := by
  refine ⟨?_, by decide, by decide⟩
  intro tn train ls now h1 h2
  unfold should_notify_train
  dsimp only
  rw [if_neg h1, if_pos h2]
  cases hts : ls.timestamp with
  | none => simp
  | some ts =>
    dsimp only
    by_cases hlt : now - ts < 600
    · rw [if_pos hlt]
      by_cases hcmp : pyStrLt (ls.train_time.getD "").data (train.std.getD "").data = true
      · simp [hlt, hcmp]
      · simp only [Bool.not_eq_true] at hcmp
        simp [hlt, hcmp]
    · rw [if_neg hlt]
      simp [hlt]

/-- C4 witness: the too-soon characterization applied 3 minutes after a
record for a 10:00 train, observing a 10:15 train. -/
theorem C4_witness :
    ((⟨some "sig", some "10:00", some 0, some "X"⟩ : NotificationRecord).train_time
       ≠ some ((⟨some "10:15", some "On time", false, some "1", []⟩ : Train).std.getD ""))
    ∧ truthyStrOpt (⟨some "sig", some "10:00", some 0, some "X"⟩ :
        NotificationRecord).train_time = true
    ∧ should_notify_train "R" ⟨some "10:15", some "On time", false, some "1", []⟩
        (some ⟨some "sig", some "10:00", some 0, some "X"⟩) 180 =
        (if ((match (⟨some "sig", some "10:00", some 0, some "X"⟩ :
                NotificationRecord).timestamp with
              | some ts => decide ((180 : Int) - ts < 600)
              | none => false)
             && pyStrLt ((⟨some "sig", some "10:00", some 0, some "X"⟩ :
                  NotificationRecord).train_time.getD "").data
                ((⟨some "10:15", some "On time", false, some "1", []⟩ :
                  Train).std.getD "").data) = true
         then ((false, "too_soon") : Bool × String) else (true, "new_train")) :=
  ⟨by decide, by decide,
   C4_too_soon.1 "R" ⟨some "10:15", some "On time", false, some "1", []⟩
     ⟨some "sig", some "10:00", some 0, some "X"⟩ 180 (by decide) (by decide)⟩

/-- C6: on every approval, the train loop overwrites the route state
with the new signature, the scheduled time of the train, the current
timestamp and the triggering reason, and invokes dispatch; the updated
state is the same whether delivery succeeds or fails, so a delivery
failure does not block the record update. -/
theorem C6_approve_updates_state :
    ∀ (config : Config) (trip : Trip) (tn fn : String) (ls : Option NotificationRecord)
      (now : Int) (t : Train) (rest : List Train) (st : StateMap) (r0 : String),
      eligibility trip t = some r0 →
      (should_notify_train tn t ls now).1 = true →
      (∀ ok : Bool, check_trains_loop config trip tn fn ls now ok (t :: rest) st =
        (stateInsert st tn
          ⟨some (get_train_signature tn t), some (t.std.getD "Unknown"), some now, some r0⟩,
         [(build_message trip tn fn t (t.std.getD "Unknown") r0,
           send_telegram ok config.telegram_token config.telegram_chat_id
             (build_message trip tn fn t (t.std.getD "Unknown") r0))]))
      ∧ (check_trains_loop config trip tn fn ls now true (t :: rest) st).1 =
        (check_trains_loop config trip tn fn ls now false (t :: rest) st).1 := by
  intro config trip tn fn ls now t rest st r0 heli happ
  have hstep : ∀ ok : Bool, check_trains_loop config trip tn fn ls now ok (t :: rest) st =
      (stateInsert st tn
        ⟨some (get_train_signature tn t), some (t.std.getD "Unknown"), some now, some r0⟩,
       [(build_message trip tn fn t (t.std.getD "Unknown") r0,
         send_telegram ok config.telegram_token config.telegram_chat_id
           (build_message trip tn fn t (t.std.getD "Unknown") r0))]) := by
    intro ok
    simp only [check_trains_loop]
    rw [heli]
    dsimp only
    rw [if_pos happ]
  exact ⟨hstep, by rw [hstep true, hstep false]⟩

/-- C6 witness: the approval update applied to a first-ever cancelled
train, with delivery succeeding. -/
theorem C6_witness :
    eligibility ⟨"R", "AAA", "BBB", ["monday"], "07:00", "09:00",
        ⟨some true, some true, some true, some 5⟩⟩
      ⟨some "10:30", some "10:30", true, none, []⟩ = some "CANCELLED"
    ∧ (should_notify_train "R" ⟨some "10:30", some "10:30", true, none, []⟩ none 0).1 = true
    ∧ check_trains_loop ⟨"tok", "chat"⟩ ⟨"R", "AAA", "BBB", ["monday"], "07:00", "09:00",
        ⟨some true, some true, some true, some 5⟩⟩ "R" "AAA" none 0 true
        [⟨some "10:30", some "10:30", true, none, []⟩] [] =
      (stateInsert [] "R"
        ⟨some (get_train_signature "R" ⟨some "10:30", some "10:30", true, none, []⟩),
         some ((⟨some "10:30", some "10:30", true, none, []⟩ : Train).std.getD "Unknown"),
         some 0, some "CANCELLED"⟩,
       [(build_message ⟨"R", "AAA", "BBB", ["monday"], "07:00", "09:00",
           ⟨some true, some true, some true, some 5⟩⟩ "R" "AAA"
           ⟨some "10:30", some "10:30", true, none, []⟩
           ((⟨some "10:30", some "10:30", true, none, []⟩ : Train).std.getD "Unknown")
           "CANCELLED",
         send_telegram true "tok" "chat"
           (build_message ⟨"R", "AAA", "BBB", ["monday"], "07:00", "09:00",
             ⟨some true, some true, some true, some 5⟩⟩ "R" "AAA"
             ⟨some "10:30", some "10:30", true, none, []⟩
             ((⟨some "10:30", some "10:30", true, none, []⟩ : Train).std.getD "Unknown")
             "CANCELLED"))]) :=
  ⟨by decide, by decide,
   (C6_approve_updates_state ⟨"tok", "chat"⟩ ⟨"R", "AAA", "BBB", ["monday"], "07:00", "09:00",
       ⟨some true, some true, some true, some 5⟩⟩ "R" "AAA" none 0
       ⟨some "10:30", some "10:30", true, none, []⟩ [] [] "CANCELLED"
       (by decide) (by decide)).1 true⟩

/-- C1 counterexample: a concrete poll in which the first of the three
departures is actionable (on time with a platform) but suppressed as a
duplicate, and the loop nevertheless evaluates the second departure,
approves it and notifies about it in the same poll — contrary to the
claim that evaluation stops at the first actionable train regardless of
approval or suppression. -/
theorem C1_counterexample :
    eligibility ⟨"R", "AAA", "BBB", ["monday"], "07:00", "09:00",
        ⟨some true, some true, some true, some 5⟩⟩
      ⟨some "10:00", some "On time", false, some "1", []⟩ = some "ON TIME - Platform 1"
    ∧ should_notify_train "R" ⟨some "10:00", some "On time", false, some "1", []⟩
        (some ⟨some "R|10:00|On time|False|1", some "10:00", some 0,
          some "ON TIME - Platform 1"⟩) 600 = (false, "duplicate")
    ∧ (check_trains_loop ⟨"tok", "chat"⟩ ⟨"R", "AAA", "BBB", ["monday"], "07:00", "09:00",
        ⟨some true, some true, some true, some 5⟩⟩ "R" "AAA"
        (some ⟨some "R|10:00|On time|False|1", some "10:00", some 0,
          some "ON TIME - Platform 1"⟩) 600 true
        [⟨some "10:00", some "On time", false, some "1", []⟩,
         ⟨some "10:30", some "10:30", true, none, []⟩] []).2.length = 1
    ∧ stateLookup (check_trains_loop ⟨"tok", "chat"⟩ ⟨"R", "AAA", "BBB", ["monday"],
        "07:00", "09:00", ⟨some true, some true, some true, some 5⟩⟩ "R" "AAA"
        (some ⟨some "R|10:00|On time|False|1", some "10:00", some 0,
          some "ON TIME - Platform 1"⟩) 600 true
        [⟨some "10:00", some "On time", false, some "1", []⟩,
         ⟨some "10:30", some "10:30", true, none, []⟩] []).1 "R" =
      some ⟨some "R|10:30|10:30|True|unknown", some "10:30", some 600, some "CANCELLED"⟩ := by
  decide

/-- C1 amended: per poll, the train loop skips a non-actionable train,
falls through to the next departure when the first actionable train is
suppressed by the decision engine, and stops (breaks) only when an
actionable train is approved. -/
theorem C1_stop_only_on_approval :
    ∀ (config : Config) (trip : Trip) (tn fn : String) (ls : Option NotificationRecord)
      (now : Int) (ok : Bool) (t : Train) (rest : List Train) (st : StateMap),
      (eligibility trip t = none →
        check_trains_loop config trip tn fn ls now ok (t :: rest) st =
          check_trains_loop config trip tn fn ls now ok rest st)
      ∧ (∀ r0, eligibility trip t = some r0 → (should_notify_train tn t ls now).1 = false →
        check_trains_loop config trip tn fn ls now ok (t :: rest) st =
          check_trains_loop config trip tn fn ls now ok rest st)
      ∧ (∀ r0, eligibility trip t = some r0 → (should_notify_train tn t ls now).1 = true →
        check_trains_loop config trip tn fn ls now ok (t :: rest) st =
          check_trains_loop config trip tn fn ls now ok [t] st) := by
  intro config trip tn fn ls now ok t rest st
  refine ⟨?_, ?_, ?_⟩
  · intro h
    simp only [check_trains_loop]
    rw [h]
  · intro r0 h hf
    simp only [check_trains_loop]
    rw [h]
    dsimp only
    rw [hf]
    simp
  · intro r0 h ht
    simp only [check_trains_loop]
    rw [h]
    dsimp only
    rw [ht]
    simp

/-- C1 witness: the fall-through-on-suppression behavior applied to the
duplicate-suppressed on-time train of the counterexample scenario. -/
theorem C1_witness :
    eligibility ⟨"R", "AAA", "BBB", ["monday"], "07:00", "09:00",
        ⟨some true, some true, some true, some 5⟩⟩
      ⟨some "10:00", some "On time", false, some "1", []⟩ = some "ON TIME - Platform 1"
    ∧ (should_notify_train "R" ⟨some "10:00", some "On time", false, some "1", []⟩
        (some ⟨some "R|10:00|On time|False|1", some "10:00", some 0,
          some "ON TIME - Platform 1"⟩) 600).1 = false
    ∧ check_trains_loop ⟨"tok", "chat"⟩ ⟨"R", "AAA", "BBB", ["monday"], "07:00", "09:00",
        ⟨some true, some true, some true, some 5⟩⟩ "R" "AAA"
        (some ⟨some "R|10:00|On time|False|1", some "10:00", some 0,
          some "ON TIME - Platform 1"⟩) 600 true
        [⟨some "10:00", some "On time", false, some "1", []⟩] [] =
      check_trains_loop ⟨"tok", "chat"⟩ ⟨"R", "AAA", "BBB", ["monday"], "07:00", "09:00",
        ⟨some true, some true, some true, some 5⟩⟩ "R" "AAA"
        (some ⟨some "R|10:00|On time|False|1", some "10:00", some 0,
          some "ON TIME - Platform 1"⟩) 600 true [] [] :=
  ⟨by decide, by decide,
   (C1_stop_only_on_approval ⟨"tok", "chat"⟩ ⟨"R", "AAA", "BBB", ["monday"], "07:00", "09:00",
       ⟨some true, some true, some true, some 5⟩⟩ "R" "AAA"
       (some ⟨some "R|10:00|On time|False|1", some "10:00", some 0,
         some "ON TIME - Platform 1"⟩) 600 true
       ⟨some "10:00", some "On time", false, some "1", []⟩ [] []).2.1
     "ON TIME - Platform 1" (by decide) (by decide)⟩

/-- C2 counterexample: a cancelled train on a route whose
notify_cancelled criterion is false is still marked notification-worthy
by the source eligibility block, while the eligibility worded by the
claim marks it not worthy. -/
theorem C2_counterexample :
    (eligibility ⟨"R", "AAA", "BBB", ["monday"], "07:00", "09:00",
        ⟨some false, some false, some true, some 5⟩⟩
      ⟨some "10:00", some "On time", true, none, []⟩).isSome = true
    ∧ spec_eligibility ⟨"R", "AAA", "BBB", ["monday"], "07:00", "09:00",
        ⟨some false, some false, some true, some 5⟩⟩
      ⟨some "10:00", some "On time", true, none, []⟩ = false := by
  decide

/-- C2 amended: the eligibility check never consults notify_cancelled or
notify_delayed — a cancelled train is always worthy, and the delay rule
fires whenever the effective etd differs from both On time and std and
the computed delay reaches the threshold; only notify_platform (default
true) gates its rule, together with a truthy platform, and only when the
delay branch was not taken. -/
theorem C2_amended_flag_gating :
    ∀ (trip : Trip) (train : Train),
      ((eligibility trip train).isSome = true ↔
        (train.isCancelled = true
         ∨ (train.isCancelled = false ∧ etdEff train ≠ some "On time" ∧ etdEff train ≠ train.std
            ∧ trip.criteria.delay_threshold_minutes.getD 5 ≤
                parse_delay_minutes (etdEff train) train.std)
         ∨ (train.isCancelled = false
            ∧ ¬(etdEff train ≠ some "On time" ∧ etdEff train ≠ train.std)
            ∧ truthyStrOpt train.platform = true
            ∧ trip.criteria.notify_platform.getD true = true)))
      ∧ (∀ b1 b2 : Option Bool,
          eligibility { trip with criteria := { trip.criteria with
            notify_cancelled := b1, notify_delayed := b2 } } train = eligibility trip train) := by
  intro trip train
  constructor
  · unfold eligibility
    dsimp only
    split_ifs with h1 h2 h3 h4 <;> simp_all <;> tauto
  · intro b1 b2
    rfl

/-- C8 counterexample: a non-cancelled train with estimated time Delayed
on a route with delay_threshold_minutes 1 is not marked
notification-worthy, contrary to the claim that Delayed is treated as
unknown-duration-but-actionable under the delay criterion. -/
theorem C8_counterexample :
    (⟨some "10:00", some "Delayed", false, some "2", []⟩ : Train).isCancelled = false
    ∧ (⟨some "10:00", some "Delayed", false, some "2", []⟩ : Train).etd = some "Delayed"
    ∧ (1 : Int) ≤ (⟨some false, some true, some true, some 1⟩ :
        Criteria).delay_threshold_minutes.getD 5
    ∧ eligibility ⟨"R", "AAA", "BBB", ["monday"], "07:00", "09:00",
        ⟨some false, some true, some true, some 1⟩⟩
      ⟨some "10:00", some "Delayed", false, some "2", []⟩ = none := by
  decide

/-- C8 amended: the caller branches on the On time sentinel in effect
(the delay branch is skipped, falling through to the platform rule), but
not on Delayed: the calculator maps Delayed to a delay of 0, so a
non-cancelled Delayed train is worthy under the delay criterion exactly
when delay_threshold_minutes is at most 0, and is not worthy under it
whenever the threshold is 1 or more. -/
theorem C8_delayed_sentinel :
    (∀ (trip : Trip) (train : Train),
      train.isCancelled = false → train.etd = some "Delayed" → train.std ≠ some "Delayed" →
      parse_delay_minutes (etdEff train) train.std = 0 ∧
      eligibility trip train =
        (if trip.criteria.delay_threshold_minutes.getD 5 ≤ 0
         then some "DELAYED 0min" else none))
    ∧ (∀ (trip : Trip) (train : Train),
      train.isCancelled = false → etdEff train = some "On time" →
      eligibility trip train =
        (if truthyStrOpt train.platform = true ∧ trip.criteria.notify_platform.getD true = true
         then some ("ON TIME - Platform " ++ train.platform.getD "") else none)) := by
  constructor
  · intro trip train hcan he hstd
    have hetd : etdEff train = some "Delayed" := by
      unfold etdEff
      rw [he]
      rfl
    have h0 : parse_delay_minutes (etdEff train) train.std = 0 := by
      rw [hetd]
      unfold parse_delay_minutes
      rw [if_pos (Or.inl rfl)]
    refine ⟨h0, ?_⟩
    unfold eligibility
    dsimp only
    rw [hcan]
    rw [if_neg (by simp)]
    rw [if_pos ⟨by rw [hetd]; decide, by rw [hetd]; exact fun hc => hstd hc.symm⟩]
    rw [h0]
    have hs : ("DELAYED " ++ toString (0 : Int) ++ "min") = "DELAYED 0min" := by decide
    rw [hs]
  · intro trip train hcan hetd
    unfold eligibility
    dsimp only
    rw [hcan]
    rw [if_neg (by simp)]
    rw [if_neg (fun hc => hc.1 hetd)]

/-- C8 witness: the Delayed-sentinel characterization applied to a
Delayed train on a route with threshold 1. -/
theorem C8_witness :
    (⟨some "10:00", some "Delayed", false, some "2", []⟩ : Train).isCancelled = false
    ∧ (⟨some "10:00", some "Delayed", false, some "2", []⟩ : Train).etd = some "Delayed"
    ∧ (⟨some "10:00", some "Delayed", false, some "2", []⟩ : Train).std ≠ some "Delayed"
    ∧ eligibility ⟨"R", "AAA", "BBB", ["monday"], "07:00", "09:00",
        ⟨some false, some true, some true, some 1⟩⟩
      ⟨some "10:00", some "Delayed", false, some "2", []⟩ =
        (if (⟨"R", "AAA", "BBB", ["monday"], "07:00", "09:00",
            ⟨some false, some true, some true, some 1⟩⟩ :
            Trip).criteria.delay_threshold_minutes.getD 5 ≤ 0
         then some "DELAYED 0min" else none) :=
  ⟨by decide, by decide, by decide,
   (C8_delayed_sentinel.1 ⟨"R", "AAA", "BBB", ["monday"], "07:00", "09:00",
       ⟨some false, some true, some true, some 1⟩⟩
     ⟨some "10:00", some "Delayed", false, some "2", []⟩
     (by decide) (by decide) (by decide)).2⟩

/-- C10: a criteria object with missing keys uses defaults instead of
failing: a missing delay_threshold_minutes behaves as 5 and a missing
notify_platform behaves as true, so an on-time train with an assigned
platform is notified by default. -/
theorem C10_criteria_defaults :
    (∀ (trip : Trip) (train : Train), trip.criteria.delay_threshold_minutes = none →
      eligibility trip train =
        eligibility { trip with criteria := { trip.criteria with
          delay_threshold_minutes := some 5 } } train)
    ∧ (∀ (trip : Trip) (train : Train), trip.criteria.notify_platform = none →
      eligibility trip train =
        eligibility { trip with criteria := { trip.criteria with
          notify_platform := some true } } train)
    ∧ eligibility ⟨"R", "AAA", "BBB", ["monday"], "07:00", "09:00", ⟨none, none, none, none⟩⟩
        ⟨some "10:00", some "On time", false, some "2", []⟩ = some "ON TIME - Platform 2" := by
  refine ⟨?_, ?_, by decide⟩
  · intro trip train h
    unfold eligibility
    rw [h]
    rfl
  · intro trip train h
    unfold eligibility
    rw [h]
    rfl

/-- C10 witness: the notify_platform default applied to a criteria
object with every key missing. -/
theorem C10_witness :
    (⟨"R", "AAA", "BBB", ["monday"], "07:00", "09:00", ⟨none, none, none, none⟩⟩ :
      Trip).criteria.notify_platform = none
    ∧ eligibility ⟨"R", "AAA", "BBB", ["monday"], "07:00", "09:00", ⟨none, none, none, none⟩⟩
        ⟨some "10:00", some "On time", false, some "2", []⟩ =
      eligibility { (⟨"R", "AAA", "BBB", ["monday"], "07:00", "09:00",
          ⟨none, none, none, none⟩⟩ : Trip) with
        criteria := { (⟨none, none, none, none⟩ : Criteria) with
          notify_platform := some true } }
        ⟨some "10:00", some "On time", false, some "2", []⟩ :=
  ⟨rfl,
   C10_criteria_defaults.2.1 ⟨"R", "AAA", "BBB", ["monday"], "07:00", "09:00",
       ⟨none, none, none, none⟩⟩
     ⟨some "10:00", some "On time", false, some "2", []⟩ rfl⟩

end NotifyTrain
